import Mathlib

/- Verification development for the EchoMind real-time transcription relay.
   The JavaScript sources are embedded shallowly: each stateful object becomes
   a Lean structure, each handler or method becomes a pure transition function
   returning the new state together with the externally visible outputs
   (messages sent to the client channel, actions on the upstream transport).
   JavaScript strings are modelled as Lean strings; where character-level
   inspection matters (the transcript classifier) they are modelled as lists
   of characters. Machine floats only occur as audio samples in [-1, 1];
   they are modelled as rationals, which is exact for the values the claims
   touch. -/

namespace EchoMind

/- Section: audio framer, from the AudioWorklet processor
   (client/public audio-processor.js, class AudioProcessor).
   The processor owns a fixed-size buffer and an index; each incoming sample
   is written at the index, the index is incremented, and when it reaches
   the buffer size the whole buffer is posted as one frame and the index is
   reset.  The buffer contents are exactly the samples accumulated since the
   last reset, so the state is modelled as the list of accumulated samples
   (whose length is the buffer index) plus the frames posted so far. -/

/-- The fixed frame length from the source: this.bufferSize = 4096. -/
def bufferSize : Nat := 4096

structure FramerState where
  buffer : List ℚ
  frames : List (List ℚ)
deriving DecidableEq

/-- Loop body of AudioProcessor.process for one sample: write the sample,
advance the index, and when the buffer is full post a copy and reset. -/
def pushSample (n : Nat) (st : FramerState) (x : ℚ) : FramerState :=
  let buf := st.buffer ++ [x]
  if n ≤ buf.length then { buffer := [], frames := st.frames ++ [buf] }
  else { st with buffer := buf }

/-- AudioProcessor.process over a sequence of input samples (the for-loop). -/
def processSamples (n : Nat) (st : FramerState) (xs : List ℚ) : FramerState :=
  xs.foldl (pushSample n) st

/-- A whole capture run: the processor starts with an empty buffer and no
posted frames and consumes the captured samples in order. -/
def runAudioProcessor (xs : List ℚ) : FramerState :=
  processSamples bufferSize ⟨[], []⟩ xs

/- Section: sample quantization, from useRecorder.convertToBase64
   (client/src/useRecorder.js).  Each Float32 sample is scaled by 32768,
   clamped into [-32768, 32767], and stored in an Int16Array; the store
   truncates any fractional part toward zero. -/

/-- Truncation toward zero, the conversion applied when a JavaScript number
is stored into an Int16Array (the clamp keeps the value in 16-bit range, so
no wrap-around occurs). -/
def truncToward0 (y : ℚ) : ℤ :=
  if 0 ≤ y then ⌊y⌋ else ⌈y⌉

/-- One sample of convertToBase64:
int16Array i = Math.max(-32768, Math.min(32767, float32Array i * 32768)). -/
def quantizeSample (x : ℚ) : ℤ :=
  truncToward0 (max (-32768) (min 32767 (x * 32768)))

/- Section: client session channel, from class WebSocketManager
   (client/src/websocket.js).  The manager state holds the connection flags,
   the reconnect bookkeeping and the three de-duplicating handler sets
   (modelled as duplicate-free lists of handler identifiers).  The underlying
   browser socket is not part of the state: its events (open, close with a
   code, error, the connect timeout firing) are inputs to the transition
   functions below, and a scheduled reconnect is reported as the optional
   delay passed to setTimeout. -/

structure WSManagerState where
  url : String
  isConnected : Bool
  isConnecting : Bool
  reconnectAttempts : Nat
  maxReconnectAttempts : Nat
  reconnectDelay : Nat
  intentionalClose : Bool
  messageHandlers : List Nat
  errorHandlers : List Nat
  closeHandlers : List Nat
deriving DecidableEq

/-- The constructor defaults: 0 attempts, ceiling 5, base delay 1000,
flags false, empty handler sets. -/
def initWSManager : WSManagerState :=
  { url := "ws://localhost:5000"
    isConnected := false
    isConnecting := false
    reconnectAttempts := 0
    maxReconnectAttempts := 5
    reconnectDelay := 1000
    intentionalClose := false
    messageHandlers := []
    errorHandlers := []
    closeHandlers := [] }

/-- Set.add semantics used by the handler registration methods: adding an
already registered handler has no effect. -/
def addHandler (hs : List Nat) (h : Nat) : List Nat :=
  if h ∈ hs then hs else hs ++ [h]

/-- WebSocketManager.onError: register an error handler. -/
def registerErrorHandler (s : WSManagerState) (h : Nat) : WSManagerState :=
  { s with errorHandlers := addHandler s.errorHandlers h }

/-- WebSocketManager.attemptReconnect: bail out at the ceiling, otherwise
increment the counter and schedule a reconnect after
reconnectDelay * 2 ^ (reconnectAttempts - 1) time units (the counter having
just been incremented).  The second component is the delay handed to
setTimeout, none when nothing is scheduled. -/
def attemptReconnect (s : WSManagerState) : WSManagerState × Option Nat :=
  if s.maxReconnectAttempts ≤ s.reconnectAttempts then (s, none)
  else
    let a := s.reconnectAttempts + 1
    ({ s with reconnectAttempts := a }, some (s.reconnectDelay * 2 ^ (a - 1)))

/-- The ws.onclose handler: clear the connection flags, invoke the close
handlers (observer calls do not change the manager state), attempt a
reconnect only when the close code is not the normal-closure code 1000, the
attempt ceiling is not reached, and the close was not intentional; finally
clear the one-shot intentionalClose flag. -/
def handleClose (s : WSManagerState) (code : Nat) : WSManagerState × Option Nat :=
  let s1 := { s with isConnected := false, isConnecting := false }
  let r :=
    if code ≠ 1000 ∧ s1.reconnectAttempts < s1.maxReconnectAttempts ∧
        s1.intentionalClose = false then
      attemptReconnect s1
    else (s1, none)
  ({ r.1 with intentionalClose := false }, r.2)

/-- The connect() connection timeout firing 10000 ms after connect: when the
socket has not reached readyState OPEN (= 1), clear isConnecting and reject
the connect promise with a "Connection timeout" error.  The result is the
new state, the rejection reason handed to the caller (none when the promise
is left alone), and the list of error handlers invoked: the timeout path
invokes none of them. -/
def connectionTimeoutFires (s : WSManagerState) (readyState : Nat) :
    WSManagerState × Option String × List Nat :=
  if readyState ≠ 1 then
    ({ s with isConnecting := false }, some "Connection timeout", [])
  else (s, none, [])

/-- The ws.onerror handler: clear both flags, invoke every registered error
handler (each in its own try/catch), and reject the connect promise.  This
is the only place the error handler set is consulted. -/
def handleWsError (s : WSManagerState) : WSManagerState × Option String × List Nat :=
  ({ s with isConnected := false, isConnecting := false },
    some "websocket error", s.errorHandlers)

/-- WebSocketManager.close: close and drop the socket and clear the flags
(the intentionalClose flag is not touched here). -/
def wsClose (s : WSManagerState) : WSManagerState :=
  { s with isConnected := false, isConnecting := false }

/-- WebSocketManager.closeIntentionally: set the one-shot flag, then close. -/
def closeIntentionally (s : WSManagerState) : WSManagerState :=
  wsClose { s with intentionalClose := true }

/- Section: upstream transcription client, from class AssemblyAIStreaming
   (server/assemblyai-streaming.js).  The wrapped ws handle is modelled as
   an optional readyState (none while this.ws === null); readyState 1 is
   OPEN, matching the numeric comparison used by the server.  Actions on the
   upstream transport are reported explicitly. -/

inductive UpstreamAct where
  | closeWs (code : Nat) (reason : String)
  | sendBinaryFromBase64 (chunk : String)
deriving DecidableEq

structure AAIStreaming where
  apiKey : Option String
  ws : Option Nat
deriving DecidableEq

/-- JavaScript truthiness of this.apiKey: undefined and the empty string
are falsy. -/
def keyTruthy (a : AAIStreaming) : Bool :=
  match a.apiKey with
  | none => false
  | some k => !(k == "")

/-- AssemblyAIStreaming.connect: the whole body runs inside a try/catch
whose catch calls onError, so connect never throws past its boundary.  With
a missing key the internal throw is caught and onError is invoked
synchronously with "AssemblyAI API key is required" and no socket is
created; otherwise a socket is created (readyState CONNECTING = 0) and the
event handlers are installed, and connect resolves at once.  The second
component is the message passed to onError synchronously, if any. -/
def AAIStreaming.connect (a : AAIStreaming) : AAIStreaming × Option String :=
  if keyTruthy a then ({ a with ws := some 0 }, none)
  else (a, some "AssemblyAI API key is required")

/-- AssemblyAIStreaming.sendAudio: while the socket is OPEN, decode the
base64 chunk and send it as binary; otherwise throw the not-connected
error. -/
def AAIStreaming.sendAudio (a : AAIStreaming) (chunk : String) :
    Except String UpstreamAct :=
  if a.ws = some 1 then Except.ok (UpstreamAct.sendBinaryFromBase64 chunk)
  else Except.error "AssemblyAI WebSocket not connected"

/-- AssemblyAIStreaming.terminate: close the socket with the normal-closure
code when it is OPEN (close errors are swallowed), then unconditionally set
this.ws = null.  It never throws. -/
def AAIStreaming.terminate (a : AAIStreaming) : AAIStreaming × List UpstreamAct :=
  ({ a with ws := none },
    if a.ws = some 1 then [UpstreamAct.closeWs 1000 "Session terminated by user"] else [])

/- Section: event classifier, from the ws.on message handler installed by
   AssemblyAIStreaming.connect.  A raw upstream payload is a parsed JSON
   object; the fields the handler consults are modelled directly, with the
   transcript text as a list of characters so that the character-level
   checks (includes, the uppercase regex test) are explicit.  Payloads that
   fail to parse are dropped before reaching this function. -/

structure AAIRawMessage where
  msgType : Option (List Char)
  messageTypeField : Option (List Char)
  transcript : Option (List Char)
  endOfTurn : Bool
  confidence : Option ℚ
deriving DecidableEq

/-- The messages handed to onMessage and forwarded verbatim to the client.
transcriptMsg carries the JS fields text, partial (here isInterim), final
(here isFinal) and confidence. -/
inductive AAIEvent where
  | transcriptMsg (text : List Char) (isInterim isFinal : Bool) (confidence : Option ℚ)
  | sessionBegins
  | sessionTerminated
deriving DecidableEq

/-- hasProperFormatting from the Turn branch: the transcript includes one of
the four punctuation characters, or some character matches the regex
character class A-Z. -/
def hasProperFormatting (t : List Char) : Bool :=
  t.contains '.' || t.contains ',' || t.contains '!' || t.contains '?' ||
    t.any (fun c => decide ('A' ≤ c ∧ c ≤ 'Z'))

/-- The message handler body (after JSON.parse succeeds): Turn payloads with
a truthy transcript yield a partial message when end_of_turn is falsy, and a
final message only when the transcript has proper formatting; the two
session-lifecycle payload shapes map one-to-one; everything else yields
nothing. -/
def classifyAAIMessage (m : AAIRawMessage) : Option AAIEvent :=
  if m.msgType = some ("Turn".toList) then
    match m.transcript with
    | some t =>
      if t ≠ [] then
        if !m.endOfTurn then some (AAIEvent.transcriptMsg t true false m.confidence)
        else if hasProperFormatting t then
          some (AAIEvent.transcriptMsg t false true m.confidence)
        else none
      else none
    | none => none
  else if m.messageTypeField = some ("SessionBegins".toList) then
    some AAIEvent.sessionBegins
  else if m.messageTypeField = some ("SessionTerminated".toList) then
    some AAIEvent.sessionTerminated
  else none

/-- An end-of-turn Turn payload carrying the given transcript text. -/
def turnMessage (t : List Char) (eot : Bool) (conf : Option ℚ) : AAIRawMessage :=
  { msgType := some ("Turn".toList)
    messageTypeField := none
    transcript := some t
    endOfTurn := eot
    confidence := conf }

/-- The condition named by the specification, stated independently of the
code: the text contains one of the punctuation marks or an upper-case
letter. -/
def sentenceFormattedSpec (t : List Char) : Prop :=
  '.' ∈ t ∨ ',' ∈ t ∨ '!' ∈ t ∨ '?' ∈ t ∨ ∃ c ∈ t, 'A' ≤ c ∧ c ≤ 'Z'

instance (t : List Char) : Decidable (sentenceFormattedSpec t) := by
  unfold sentenceFormattedSpec
  infer_instance

/- Section: session proxy, from setupWebSocketHandlers in server/index.js.
   Each client connection owns one AssemblyAIStreaming instance and the two
   flags isSessionActive and isTerminating.  A step consumes one input (a
   parsed client message, or a parse failure) and yields the new state, the
   JSON messages sent to the client channel, and the actions taken on the
   upstream transport.  client.send is wrapped in try/catch everywhere, so
   sends are modelled as plain emissions. -/

inductive ClientOut where
  | connectionEstablished
  | assemblyaiConnected
  | assemblyaiError (text : String)
  | sessionTerminated
  | terminationError (text : String)
  | errorText (text : String)
  | forwardEvent (e : AAIEvent)
deriving DecidableEq

structure ProxyState where
  assemblyAI : AAIStreaming
  isSessionActive : Bool
  isTerminating : Bool
deriving DecidableEq

/-- The proxy state right after a client connection is accepted, with the
configured credential (none models a missing ASSEMBLYAI_API_KEY). -/
def initialProxy (key : Option String) : ProxyState :=
  { assemblyAI := { apiKey := key, ws := none }
    isSessionActive := false
    isTerminating := false }

/-- The onError callback passed to assemblyAI.connect: clear
isSessionActive and send the prefixed error text to the client. -/
def onUpstreamError (st : ProxyState) (msg : String) : ProxyState × List ClientOut :=
  ({ st with isSessionActive := false },
    [ClientOut.errorText ("AssemblyAI connection error: " ++ msg)])

/-- connectToAssemblyAI: return at once when already active or terminating;
otherwise await assemblyAI.connect (which never throws: a synchronous
failure is routed to the onError callback instead), then set
isSessionActive = true and send the assemblyai_connected confirmation.  The
catch branch that would send assemblyai_error is unreachable because
connect cannot throw. -/
def connectToAssemblyAI (st : ProxyState) : ProxyState × List ClientOut :=
  if st.isSessionActive || st.isTerminating then (st, [])
  else
    let c := AAIStreaming.connect st.assemblyAI
    let st1 := { st with assemblyAI := c.1 }
    let r :=
      match c.2 with
      | some m => onUpstreamError st1 m
      | none => (st1, [])
    ({ r.1 with isSessionActive := true }, r.2 ++ [ClientOut.assemblyaiConnected])

/-- One parsed client channel message (malformedJson stands for a frame on
which JSON.parse throws, otherJson for a parsed object with neither
terminate_session nor audio_data truthy). -/
inductive ClientIn where
  | terminateSession
  | audioData (chunk : String)
  | otherJson
  | malformedJson
deriving DecidableEq

structure StepResult where
  st : ProxyState
  toClient : List ClientOut
  toUpstream : List UpstreamAct
deriving DecidableEq

/-- The client.on message handler: terminate_session clears
isSessionActive, raises isTerminating, tears the upstream client down
(terminate never throws, so the session_terminated confirmation is sent and
the termination_error branch is dead), and the finally block resets
isTerminating; audio_data connects lazily only when neither active nor
terminating, then forwards the chunk upstream only when active, not
terminating, and the upstream socket reports readyState OPEN, and otherwise
drops it; a parse failure is answered with the invalid-format error. -/
def handleClientMessage (st : ProxyState) (msg : ClientIn) : StepResult :=
  match msg with
  | ClientIn.malformedJson =>
    { st := st, toClient := [ClientOut.errorText "Invalid message format"], toUpstream := [] }
  | ClientIn.terminateSession =>
    let st1 := { st with isSessionActive := false, isTerminating := true }
    let t := AAIStreaming.terminate st1.assemblyAI
    let st2 := { st1 with assemblyAI := t.1 }
    { st := { st2 with isTerminating := false }
      toClient := [ClientOut.sessionTerminated]
      toUpstream := t.2 }
  | ClientIn.audioData chunk =>
    let r :=
      if !st.isSessionActive && !st.isTerminating then connectToAssemblyAI st
      else (st, [])
    let st1 := r.1
    if st1.isSessionActive && !st1.isTerminating && (st1.assemblyAI.ws == some 1) then
      match AAIStreaming.sendAudio st1.assemblyAI chunk with
      | Except.ok act => { st := st1, toClient := r.2, toUpstream := [act] }
      | Except.error _ => { st := st1, toClient := r.2, toUpstream := [] }
    else { st := st1, toClient := r.2, toUpstream := [] }
  | ClientIn.otherJson => { st := st, toClient := [], toUpstream := [] }

/- Section: shared helper lemmas. -/

/-- The Bool-valued formatting test of the source agrees with the
Prop-valued condition named by the specification. -/
theorem hasProperFormatting_iff (t : List Char) :
    hasProperFormatting t = true ↔ sentenceFormattedSpec t := by
  simp [hasProperFormatting, sentenceFormattedSpec, List.contains, List.any_eq_true,
    List.elem_iff]
  tauto

/-- A transcript meeting the formatting condition is nonempty. -/
theorem sentenceFormattedSpec_ne_nil (t : List Char) (h : sentenceFormattedSpec t) :
    t ≠ [] := by
  rcases h with h | h | h | h | ⟨c, hc, _⟩
  · exact List.ne_nil_of_mem h
  · exact List.ne_nil_of_mem h
  · exact List.ne_nil_of_mem h
  · exact List.ne_nil_of_mem h
  · exact List.ne_nil_of_mem hc

/-- Invariant of the audio framer loop: starting from a buffer below
capacity and a list of full frames, after consuming any sample sequence the
buffer is again below capacity, every posted frame has exactly the frame
length, and the posted frames followed by the residual buffer spell out the
processed samples in order. -/
theorem processSamples_invariant (n : Nat) (hn : 0 < n) :
    ∀ (xs : List ℚ) (st : FramerState),
      st.buffer.length < n → (∀ f ∈ st.frames, f.length = n) →
      (processSamples n st xs).buffer.length < n
      ∧ (∀ f ∈ (processSamples n st xs).frames, f.length = n)
      ∧ (processSamples n st xs).frames.flatten ++ (processSamples n st xs).buffer
          = st.frames.flatten ++ st.buffer ++ xs := by
  intro xs
  induction xs with
  | nil =>
    intro st hb hf
    simpa [processSamples] using ⟨hb, hf⟩
  | cons x xs ih =>
    intro st hb hf
    have hstep : processSamples n st (x :: xs) = processSamples n (pushSample n st x) xs := by
      simp [processSamples]
    by_cases hfull : n ≤ (st.buffer ++ [x]).length
    · have hfull2 : n ≤ st.buffer.length + 1 := by simpa using hfull
      have hpush : pushSample n st x = ⟨[], st.frames ++ [st.buffer ++ [x]]⟩ := by
        simp [pushSample, hfull2]
      have hlen : (st.buffer ++ [x]).length = n := by
        simp at hfull ⊢
        omega
      have hb1 : (FramerState.mk [] (st.frames ++ [st.buffer ++ [x]])).buffer.length < n := by
        simpa using hn
      have hf1 : ∀ f ∈ (FramerState.mk [] (st.frames ++ [st.buffer ++ [x]])).frames,
          f.length = n := by
        intro f hfmem
        rcases List.mem_append.mp hfmem with hmem | hmem
        · exact hf f hmem
        · rcases List.mem_singleton.mp hmem with rfl
          exact hlen
      obtain ⟨r1, r2, r3⟩ := ih _ hb1 hf1
      rw [hstep, hpush]
      refine ⟨r1, r2, ?_⟩
      rw [r3]
      simp
    · have hfull2 : ¬ n ≤ st.buffer.length + 1 := by simpa using hfull
      have hpush : pushSample n st x = ⟨st.buffer ++ [x], st.frames⟩ := by
        simp [pushSample, hfull2]
      have hb1 : (FramerState.mk (st.buffer ++ [x]) st.frames).buffer.length < n := by
        simp at hfull ⊢
        omega
      obtain ⟨r1, r2, r3⟩ := ih _ hb1 hf
      rw [hstep, hpush]
      refine ⟨r1, r2, ?_⟩
      rw [r3]
      simp

/- Section: the claims. -/

/-- Claim C1 (refuted by the code at a concrete failing input): the claim
says an upstream connect failure leaves the Session Proxy Idle, emits an
error, and does not emit the assemblyai_connected confirmation.  With a
missing credential, AssemblyAIStreaming.connect swallows the failure and
reports it through onError without throwing, so connectToAssemblyAI
continues past the await: the proxy ends with isSessionActive = true while
no upstream socket exists, and the client receives both the error and the
assemblyai_connected confirmation. -/
theorem c1_missingKeyLeavesProxyActive :
    ((connectToAssemblyAI (initialProxy none)).1.isSessionActive = true)
    ∧ ((connectToAssemblyAI (initialProxy none)).1.assemblyAI.ws = none)
    ∧ ((connectToAssemblyAI (initialProxy none)).2 =
        [ClientOut.errorText "AssemblyAI connection error: AssemblyAI API key is required",
          ClientOut.assemblyaiConnected]) :=
  ⟨rfl, rfl, rfl⟩

/-- Claim C2: on an abnormal close below the attempt ceiling that is not
intentional, the close handler increments the attempt counter and schedules
a reconnect after reconnectDelay * 2 ^ a time units, where a is the attempt
count at the time of the close; no reconnect is scheduled on a normal
close, after an intentional close, or at the ceiling, whose default is 5. -/
theorem c2_reconnectPolicy (s : WSManagerState) (code : Nat) :
    (code ≠ 1000 → s.intentionalClose = false →
      s.reconnectAttempts < s.maxReconnectAttempts →
      handleClose s code =
        ({ s with
            isConnected := false
            isConnecting := false
            reconnectAttempts := s.reconnectAttempts + 1 },
          some (s.reconnectDelay * 2 ^ s.reconnectAttempts)))
    ∧ (code = 1000 → (handleClose s code).2 = none)
    ∧ (s.intentionalClose = true → (handleClose s code).2 = none)
    ∧ (s.maxReconnectAttempts ≤ s.reconnectAttempts → (handleClose s code).2 = none)
    ∧ initWSManager.maxReconnectAttempts = 5 := by
  refine ⟨?_, ?_, ?_, ?_, rfl⟩
  · intro hc hi ha
    simp [handleClose, attemptReconnect, hc, hi, ha, Nat.not_le.mpr ha]
  · intro hc
    simp [handleClose, hc]
  · intro hi
    simp [handleClose, attemptReconnect, hi]
  · intro ha
    simp [handleClose, attemptReconnect, Nat.not_lt.mpr ha]

/-- Witness for C2: a fresh manager closing abnormally with code 1006
schedules a reconnect after 1000 * 2 ^ 0 = 1000 time units with the counter
at 1. -/
theorem c2_reconnectPolicy_witness :
    (handleClose initWSManager 1006).2 = some 1000
    ∧ (handleClose initWSManager 1006).1.reconnectAttempts = 1 := by
  have h := (c2_reconnectPolicy initWSManager 1006).1 (by decide) rfl (by decide)
  rw [h]
  exact ⟨rfl, rfl⟩

/-- Claim C3, counterexample: with one registered error observer and a
socket that never reached OPEN, the connect timeout rejects the connect
promise but invokes no error observer, so the timeout error is not
surfaced to every registered error observer as the claim states. -/
theorem c3_timeoutObserversCounterexample :
    ((connectionTimeoutFires (registerErrorHandler initWSManager 7) 0).2.1
      = some "Connection timeout")
    ∧ ¬ (∀ h ∈ (registerErrorHandler initWSManager 7).errorHandlers,
          h ∈ (connectionTimeoutFires (registerErrorHandler initWSManager 7) 0).2.2) := by
  decide

/-- Claim C3 as amended: if no open acknowledgment has arrived when the
10-time-unit connect timeout fires, the timeout error is surfaced to the
caller (the connect promise rejects) but to none of the registered error
observers; the error observers are invoked only by the transport error
handler. -/
theorem c3_timeoutSurfacesToCallerOnly (s : WSManagerState) (rs : Nat) (h : rs ≠ 1) :
    connectionTimeoutFires s rs
        = ({ s with isConnecting := false }, some "Connection timeout", [])
    ∧ (handleWsError s).2.2 = s.errorHandlers :=
  ⟨by simp [connectionTimeoutFires, h], rfl⟩

/-- Witness for the amended C3 at a fresh manager whose socket is still
CONNECTING. -/
theorem c3_timeoutSurfacesToCallerOnly_witness :
    connectionTimeoutFires initWSManager 0
        = ({ initWSManager with isConnecting := false }, some "Connection timeout", [])
    ∧ (handleWsError initWSManager).2.2 = initWSManager.errorHandlers :=
  c3_timeoutSurfacesToCallerOnly initWSManager 0 (by decide)

/-- Claim C4: an end-of-turn Turn payload is classified as a final
transcript message exactly when its text contains one of the punctuation
marks or an upper-case letter, an unformatted end-of-turn payload yields
nothing, and in particular "hello world" yields no event while
"Hello world." yields the final message carrying that text. -/
theorem c4_finalClassifierFormatting :
    (∀ t conf,
      (classifyAAIMessage (turnMessage t true conf)
          = some (AAIEvent.transcriptMsg t false true conf) ↔ sentenceFormattedSpec t)
      ∧ (¬ sentenceFormattedSpec t → classifyAAIMessage (turnMessage t true conf) = none))
    ∧ classifyAAIMessage (turnMessage ("hello world".toList) true none) = none
    ∧ classifyAAIMessage (turnMessage ("Hello world.".toList) true none)
        = some (AAIEvent.transcriptMsg ("Hello world.".toList) false true none) := by
  refine ⟨fun t conf => ⟨⟨?_, ?_⟩, ?_⟩, by decide, by decide⟩
  · intro h
    by_cases ht : t = []
    · subst ht
      simp [classifyAAIMessage, turnMessage] at h
    · by_cases hf : hasProperFormatting t = true
      · exact (hasProperFormatting_iff t).mp hf
      · simp [classifyAAIMessage, turnMessage, ht, hf] at h
  · intro h
    have hf := (hasProperFormatting_iff t).mpr h
    have ht := sentenceFormattedSpec_ne_nil t h
    simp [classifyAAIMessage, turnMessage, ht, hf]
  · intro h
    have hf : hasProperFormatting t ≠ true := fun hc =>
      h ((hasProperFormatting_iff t).mp hc)
    by_cases ht : t = []
    · subst ht
      simp [classifyAAIMessage, turnMessage]
    · simp [classifyAAIMessage, turnMessage, ht, hf]

/-- Witness for C4 at the unformatted text of the claim. -/
theorem c4_finalClassifierFormatting_witness :
    ¬ sentenceFormattedSpec ("hello world".toList)
    ∧ classifyAAIMessage (turnMessage ("hello world".toList) true none) = none :=
  ⟨by decide, (c4_finalClassifierFormatting.1 ("hello world".toList) none).2 (by decide)⟩

/-- Claim C5: after closeIntentionally, the next close event schedules no
reconnect even with an abnormal code, and the one-shot flag is cleared by
that close, so a later abnormal close below the attempt ceiling does
schedule a reconnect. -/
theorem c5_intentionalCloseOneShot (s : WSManagerState) (c1 c2 : Nat)
    (h1 : c1 ≠ 1000) (h2 : c2 ≠ 1000) :
    ((handleClose (closeIntentionally s) c1).2 = none)
    ∧ ((handleClose (closeIntentionally s) c1).1.intentionalClose = false)
    ∧ ((handleClose (closeIntentionally s) c1).1.reconnectAttempts <
          (handleClose (closeIntentionally s) c1).1.maxReconnectAttempts →
        ((handleClose ((handleClose (closeIntentionally s) c1).1) c2).2).isSome = true) := by
  refine ⟨?_, ?_, ?_⟩
  · simp [handleClose, closeIntentionally, wsClose, attemptReconnect]
  · simp [handleClose, closeIntentionally, wsClose, attemptReconnect]
  · intro hlt
    simp [handleClose, closeIntentionally, wsClose, attemptReconnect, h2] at hlt ⊢
    split
    next =>
      rw [if_neg (Nat.not_le.mpr hlt)]
      rfl
    next h => exact absurd hlt h

/-- Witness for C5: a fresh manager closed intentionally ignores the first
abnormal close 1006 and reconnects on the next one. -/
theorem c5_intentionalCloseOneShot_witness :
    ((handleClose (closeIntentionally initWSManager) 1006).2 = none)
    ∧ ((handleClose (closeIntentionally initWSManager) 1006).1.intentionalClose = false)
    ∧ (((handleClose ((handleClose (closeIntentionally initWSManager) 1006).1) 1006).2).isSome
        = true) := by
  obtain ⟨a, b, c⟩ := c5_intentionalCloseOneShot initWSManager 1006 1006 (by decide) (by decide)
  exact ⟨a, b, c (by decide)⟩

/-- Claim C6: an audio_data message arriving while the proxy is terminating
leaves the proxy state untouched, sends nothing to the client or upstream,
and the connect guard itself refuses to initiate an upstream connection
while terminating. -/
theorem c6_audioDroppedWhileTerminating (st : ProxyState) (chunk : String)
    (h : st.isTerminating = true) :
    handleClientMessage st (ClientIn.audioData chunk) = ⟨st, [], []⟩
    ∧ connectToAssemblyAI st = (st, []) := by
  constructor
  · simp [handleClientMessage, h]
  · simp [connectToAssemblyAI, h]

/-- Witness for C6: a terminating proxy with an open upstream socket drops
an audio frame without any state change or output. -/
theorem c6_audioDroppedWhileTerminating_witness :
    handleClientMessage ⟨⟨some "key", some 1⟩, true, true⟩ (ClientIn.audioData "AAAA")
        = ⟨⟨⟨some "key", some 1⟩, true, true⟩, [], []⟩
    ∧ connectToAssemblyAI ⟨⟨some "key", some 1⟩, true, true⟩
        = (⟨⟨some "key", some 1⟩, true, true⟩, []) :=
  c6_audioDroppedWhileTerminating ⟨⟨some "key", some 1⟩, true, true⟩ "AAAA" rfl

/-- Claim C7: quantization is scale-and-clamp into signed 16 bits: the
sample 1.0 encodes to 32767 via the clamp and -1.0 encodes to -32768. -/
theorem c7_quantizationClamp :
    quantizeSample 1 = 32767 ∧ quantizeSample (-1) = -32768 := by
  constructor <;>
    norm_num [quantizeSample, truncToward0, min_def, max_def, Int.ceil_neg, Int.floor_intCast]

/-- Claim C8: over any captured sample sequence the framer posts frames
whose concatenation in emission order is the input truncated to a multiple
of the frame length 4096, every posted frame has exactly length 4096 (so
none is empty or undersized), and the number of posted frames is exactly
the number of times the buffer filled. -/
theorem c8_framerConcatenation (xs : List ℚ) :
    (runAudioProcessor xs).frames.flatten
        = xs.take (bufferSize * (xs.length / bufferSize))
    ∧ (∀ f ∈ (runAudioProcessor xs).frames, f.length = bufferSize)
    ∧ (runAudioProcessor xs).frames.length = xs.length / bufferSize := by
  obtain ⟨hb, hf, hcat⟩ := processSamples_invariant bufferSize (by norm_num [bufferSize]) xs
    ⟨[], []⟩ (by norm_num [bufferSize]) (by simp)
  rw [show processSamples bufferSize ⟨[], []⟩ xs = runAudioProcessor xs from rfl] at hb hf hcat
  set J := (runAudioProcessor xs).frames.flatten with hJ
  set B := (runAudioProcessor xs).buffer with hB
  set k := (runAudioProcessor xs).frames.length with hk
  have hcat2 : J ++ B = xs := by simpa using hcat
  have hjoinlen : J.length = bufferSize * k := by
    have hrep : (runAudioProcessor xs).frames.map List.length
        = List.replicate ((runAudioProcessor xs).frames.map List.length).length bufferSize := by
      apply List.eq_replicate_of_mem
      intro b hbmem
      rcases List.mem_map.mp hbmem with ⟨f, hfm, rfl⟩
      exact hf f hfm
    calc J.length = ((runAudioProcessor xs).frames.map List.length).sum := by
          rw [hJ]
          simp [List.length_flatten]
      _ = (List.replicate ((runAudioProcessor xs).frames.map List.length).length
            bufferSize).sum := by
          rw [← hrep]
      _ = bufferSize * k := by
          simp [List.sum_replicate, smul_eq_mul, Nat.mul_comm, hk]
  have hxslen : xs.length = bufferSize * k + B.length := by
    rw [← hcat2, List.length_append, hjoinlen]
  have hdiv : xs.length / bufferSize = k := by
    rw [hxslen, Nat.mul_add_div (by norm_num [bufferSize]), Nat.div_eq_of_lt hb, Nat.add_zero]
  refine ⟨?_, hf, hdiv.symm⟩
  rw [hdiv, ← hjoinlen, ← hcat2, List.take_left]

/-- Claim C9: from every proxy state, a terminate_session request sends
exactly one session_terminated confirmation to the client, clears the
upstream handle, and leaves the terminating flag false afterwards; in this
model the teardown cannot throw, so the termination_error branch never
fires. -/
theorem c9_terminateAlwaysConfirms (st : ProxyState) :
    (handleClientMessage st ClientIn.terminateSession).toClient
        = [ClientOut.sessionTerminated]
    ∧ (handleClientMessage st ClientIn.terminateSession).st.isTerminating = false
    ∧ (handleClientMessage st ClientIn.terminateSession).st.assemblyAI.ws = none :=
  ⟨rfl, rfl, rfl⟩

/-- Claim C10: terminate always nulls the upstream handle, a second
terminate is a no-op on both state and transport, and sendAudio after
terminate fails with the not-connected error. -/
theorem c10_terminateIdempotent (a : AAIStreaming) (chunk : String) :
    ((AAIStreaming.terminate a).1.ws = none)
    ∧ (AAIStreaming.terminate (AAIStreaming.terminate a).1
        = ((AAIStreaming.terminate a).1, []))
    ∧ (AAIStreaming.sendAudio (AAIStreaming.terminate a).1 chunk
        = Except.error "AssemblyAI WebSocket not connected") := by
  refine ⟨rfl, ?_, ?_⟩ <;> simp [AAIStreaming.terminate, AAIStreaming.sendAudio]

end EchoMind
